import Mathlib

/-
Verification of the cache/lookup engine of `ipdetailscache.py`
(class `IPDetailsCache`, method `GetIPInformation`), as a shallow
embedding.  The external collaborators (the `ipaddr`/`IPy` address
library wrapped by `IPWrapper`/`NetWrapper`, the RIPEStat HTTP fetch
`urllib2.urlopen` + `json.loads`, the reverse-DNS call
`socket.getfqdn`, and the clock `time.time`) are parameters of an
environment structure; everything else is translated line by line from
the source.
-/

/-- A result dictionary / address-cache record: the five keys
`TS`, `ASN`, `Holder`, `Prefix`, `HostName` written by
`GetIPInformation` (lines 144-150 and 223-227 of the source). -/
structure Result where
  TS : Int
  ASN : String
  Holder : String
  Prefix : String
  HostName : String
deriving DecidableEq, Repr

/-- A prefix-cache record: keys `TS`, `ASN`, `Holder` (lines 134-136).
`Holder` is an `Option` because the source reads it with
`.get("Holder","")` (line 181): a record loaded from an older cache
file may lack the key. -/
structure PrefixRecord where
  TS : Int
  ASN : String
  Holder : Option String
deriving DecidableEq, Repr

/-- The observable behaviour of an `IPWrapper` object: its `exploded()`
canonical text and its `is_globally_routable()` classification.  The
underlying IP library is an external collaborator. -/
structure IPObj where
  exploded : String
  globallyRoutable : Bool
deriving DecidableEq, Repr

/-- One element of `obj["data"]["asns"]`.  Each field is an `Option`:
`none` models a failing `["asn"]` / `["holder"]` access (caught by the
bare `except` at line 203); `asn` holds `str(entry["asn"])`. -/
structure AsnEntry where
  asn : Option String
  holder : Option String
deriving DecidableEq, Repr

/-- Outcome of `json.loads(urllib2.urlopen(URL).read())` together with
the un-guarded accesses `obj["status"]` and `obj["data"]["asns"]`
(lines 191-196): `raise` covers a transport error, a JSON parse error
or a missing `status`/`data`/`asns` key (all of which propagate out of
`GetIPInformation`); `resp` carries the status string, the asns list
and the (possibly missing) `obj["data"]["resource"]` value. -/
inductive Fetch where
  | raise
  | resp (status : String) (asns : List AsnEntry) (resource : Option String)
deriving DecidableEq, Repr

/-- The external collaborators of `GetIPInformation`. -/
structure Env where
  parseIP : String → Option IPObj
  contains : String → IPObj → Bool
  getfqdn : String → String
  fetch : String → Fetch

/-- Exceptions that can escape `GetIPInformation`: a failing
`IPWrapper` constructor (malformed address), and a `LookupError`-style
failure of the remote fetch (transport error, or the uncaught
`KeyError` of line 210). -/
inductive Err where
  | invalidAddress
  | lookupError
deriving DecidableEq, Repr

/-- The mutable state of an `IPDetailsCache` instance touched by
`GetIPInformation`: the two cache dictionaries plus the two wrapper
memo dictionaries (for the memos only the key sets matter, because the
wrapper objects are deterministic functions of their key). -/
structure CacheState where
  IPAddressesCache : List (String × Result)
  IPPrefixesCache : List (String × PrefixRecord)
  IPAddressObjects : List String
  IPPrefixObjects : List String
deriving DecidableEq, Repr

/-- One run of `GetIPInformation`: the returned result or raised
exception, the post-state, and two ghost flags recording whether the
remote URL was opened (line 191) and whether `socket.getfqdn` was
called (line 213). -/
structure RunOut where
  res : Except Err Result
  st : CacheState
  fetched : Bool
  dnsQueried : Bool

instance : DecidableEq (Except Err Result) := fun a b =>
  match a, b with
  | .ok x, .ok y =>
    if h : x = y then isTrue (by rw [h]) else isFalse (fun hc => h (by cases hc; rfl))
  | .error x, .error y =>
    if h : x = y then isTrue (by rw [h]) else isFalse (fun hc => h (by cases hc; rfl))
  | .ok _, .error _ => isFalse (fun hc => Except.noConfusion hc)
  | .error _, .ok _ => isFalse (fun hc => Except.noConfusion hc)

/-- Dictionary read `d[k]` (first matching key of the association
list). -/
def lookupKey (k : String) : List (String × α) → Option α
  | [] => none
  | (k', v) :: rest => if k' = k then some v else lookupKey k rest

/-- Dictionary write `d[k] = v`: overwrite in place, or append a new
key at the end. -/
def setKey (k : String) (v : α) : List (String × α) → List (String × α)
  | [] => [(k, v)]
  | (k', v') :: rest => if k' = k then (k, v) :: rest else (k', v') :: setKey k v rest

/-- `k in d` for an association list. -/
def containsKey (k : String) (l : List (String × α)) : Bool :=
  (lookupKey k l).isSome

/-- Deletion of the first entry with key `k` (no source counterpart:
used only to state frame properties about stale entries). -/
def removeKey (k : String) : List (String × α) → List (String × α)
  | [] => []
  | (k', v) :: rest => if k' = k then rest else (k', v) :: removeKey k rest

/-- `if not k in d: d[k] = obj` on a memo dictionary, tracking only the
key set. -/
def insertObj (k : String) (l : List String) : List String :=
  if k ∈ l then l else l ++ [k]

/-- All characters of a list are decimal digits. -/
def isDigitList : List Char → Bool
  | [] => true
  | c :: cs => c.isDigit && isDigitList cs

/-- Python's `str.isdigit` restricted to ASCII content: non-empty and
all characters decimal digits (line 212). -/
def isdigitStr (s : String) : Bool :=
  !(s = "") && isDigitList s.data

/-- Lines 165-169: the address-cache probe.  Returns the stored record
when it exists and its `TS` passes
`TS >= int(time.time()) - self.MAX_CACHE`; an absent key and a stale
record both give `none` (the stale case only prints a debug line and
falls through). -/
def freshAddrHit (now maxCache : Int) (cache : List (String × Result)) (ip : String) :
    Option Result :=
  match lookupKey ip cache with
  | some rec => if rec.TS ≥ now - maxCache then some rec else none
  | none => none

/-- Lines 173-184: the linear scan of `IPPrefixesCache`.  A fresh entry
is first memoised in `IPPrefixObjects` (lines 175-176) and then tested
for containment; the first fresh containing entry is returned and the
loop breaks.  Stale entries are skipped without being memoised.
Returns the updated memo key set and the matched `(key, record)` if
any. -/
def scanPrefixes (env : Env) (ipObj : IPObj) (now maxCache : Int) :
    List (String × PrefixRecord) → List String → List String × Option (String × PrefixRecord)
  | [], objs => (objs, none)
  | (p, rec) :: rest, objs =>
    if rec.TS ≥ now - maxCache then
      if env.contains p ipObj then (insertObj p objs, some (p, rec))
      else scanPrefixes env ipObj now maxCache rest (insertObj p objs)
    else scanPrefixes env ipObj now maxCache rest objs

/-- The `Result` dictionary after the prefix scan: on a match, lines
179-182 (with `Holder` read through `.get("Holder","")`); otherwise
the initial dictionary of lines 145-150. -/
def seedResult : Option (String × PrefixRecord) → Result
  | some pm => ⟨pm.2.TS, pm.2.ASN, pm.2.Holder.getD "", pm.1, ""⟩
  | none => ⟨0, "", "", "", ""⟩

/-- Lines 193-210: interpretation of a non-raising JSON response.
When `status == "ok"`, `TS` is set to `now` (line 194); a non-empty
asns list runs the `try` block in source order (`ASN`, then `Holder`,
then `Prefix`), the bare `except` resetting `ASN` to `"unknown"` while
keeping whatever was already assigned; an empty asns list sets
`ASN = "not announced"`, `Holder = ""` and reads
`obj["data"]["resource"]` outside any `try` (line 210), so a missing
`resource` there propagates as an exception. -/
def applyFetch (now : Int) (r : Result) (status : String) (asns : List AsnEntry)
    (resource : Option String) : Except Err Result :=
  if status = "ok" then
    let r := { r with TS := now }
    match asns with
    | [] =>
      match resource with
      | none => .error .lookupError
      | some res => .ok { r with ASN := "not announced", Holder := "", Prefix := res }
    | e :: _ =>
      match e.asn with
      | none => .ok { r with ASN := "unknown" }
      | some a =>
        match e.holder with
        | none => .ok { r with ASN := "unknown" }
        | some h =>
          match resource with
          | none => .ok { r with ASN := "unknown", Holder := h }
          | some res => .ok { r with ASN := a, Holder := h, Prefix := res }
  else .ok r

/-- Lines 212-217: the hostname enrichment, returning the updated
result and whether `socket.getfqdn` was called. -/
def applyHostname (env : Env) (ip : String) (r : Result) : Result × Bool :=
  if isdigitStr r.ASN || r.ASN = "not announced" then
    let hn := env.getfqdn ip
    ({ r with HostName := if hn = ip || hn = "" then "unknown" else hn }, true)
  else (r, false)

/-- Lines 219-239: the unconditional write of the five result fields
into the address cache, followed by the prefix-cache write when
`Result["Prefix"]` is non-empty. -/
def storeResult (ip : String) (r : Result) (st : CacheState) : CacheState :=
  { st with
    IPAddressesCache := setKey ip r st.IPAddressesCache,
    IPPrefixesCache :=
      if r.Prefix = "" then st.IPPrefixesCache
      else setKey r.Prefix ⟨r.TS, r.ASN, some r.Holder⟩ st.IPPrefixesCache }

/-- `IPDetailsCache.GetIPInformation` (lines 144-240).  `now` models
`int(time.time())` (a single call is assumed to observe one clock
value), `maxCache` is `self.MAX_CACHE`. -/
def GetIPInformation (env : Env) (now maxCache : Int) (st : CacheState) (in_IP : String) :
    RunOut :=
  match env.parseIP in_IP with
  | none => ⟨.error .invalidAddress, st, false, false⟩
  | some ipObj =>
    let ip := ipObj.exploded
    let st1 := { st with IPAddressObjects := insertObj ip st.IPAddressObjects }
    if ipObj.globallyRoutable = false then
      ⟨.ok ⟨0, "unknown", "", "", ""⟩, st1, false, false⟩
    else
      match freshAddrHit now maxCache st1.IPAddressesCache ip with
      | some rec => ⟨.ok rec, st1, false, false⟩
      | none =>
        let scanned := scanPrefixes env ipObj now maxCache st1.IPPrefixesCache st1.IPPrefixObjects
        let st2 := { st1 with IPPrefixObjects := scanned.1 }
        let r0 := seedResult scanned.2
        if r0.ASN = "" then
          match env.fetch ip with
          | .raise => ⟨.error .lookupError, st2, true, false⟩
          | .resp status asns resource =>
            match applyFetch now r0 status asns resource with
            | .error e => ⟨.error e, st2, true, false⟩
            | .ok r1 =>
              let hr := applyHostname env ip r1
              ⟨.ok hr.1, storeResult ip hr.1 st2, true, hr.2⟩
        else
          ⟨.ok r0, storeResult ip r0 st2, false, false⟩

/-
Concrete fixtures used by witnesses and counterexamples.  The
environment functions are small total tables standing for the external
IP library, DNS and RIPEStat service.
-/

/-- A globally routable test address object. -/
def objA : IPObj := ⟨"203.0.113.7", true⟩

/-- A non-globally-routable test address object. -/
def objNR : IPObj := ⟨"10.0.0.1", false⟩

/-- An environment whose remote service answers `status = "ok"` with
one asns entry and a covering resource. -/
def env1 : Env :=
  { parseIP := fun s =>
      if s = "203.0.113.7" then some objA
      else if s = "10.0.0.1" then some objNR
      else none,
    contains := fun p _ => p = "203.0.113.0/24",
    getfqdn := fun _ => "host.example.net",
    fetch := fun _ => .resp "ok" [⟨some "64500", some "ExHolder"⟩] (some "203.0.113.0/24") }

/-- The empty cache state. -/
def st0 : CacheState := ⟨[], [], [], []⟩

/-- Same as `env1` but the remote service reports a non-"ok" status. -/
def envNonOk : Env := { env1 with fetch := fun _ => .resp "maintenance" [] none }

/-- Same as `env1` but the remote fetch raises (transport failure). -/
def envRaise : Env := { env1 with fetch := fun _ => .raise }

/-- Same as `env1` but the payload lacks `data.resource` while the
asns entry is fully readable. -/
def envMissRes : Env :=
  { env1 with fetch := fun _ => .resp "ok" [⟨some "64500", some "ExHolder"⟩] none }

/-- A state holding one fresh prefix-cache entry covering
`203.0.113.7`. -/
def stP : CacheState := ⟨[], [("203.0.113.0/24", ⟨900, "64500", some "H"⟩)], [], []⟩

/-- A state holding one fresh prefix-cache entry with an empty `ASN`
and no `Holder` key. -/
def stPE : CacheState := ⟨[], [("203.0.113.0/24", ⟨900, "", none⟩)], [], []⟩

/-- A state holding one stale address-cache entry for `203.0.113.7`
(timestamp 1, useful with `now` around 1000000). -/
def stSt : CacheState :=
  ⟨[("203.0.113.7", ⟨1, "64500", "H", "203.0.113.0/24", "old.example"⟩)], [], [], []⟩

/-- A state holding one stale prefix-cache entry (timestamp 1). -/
def stSP : CacheState := ⟨[], [("203.0.113.0/24", ⟨1, "64500", some "H"⟩)], [], []⟩

/-- A state holding one fresh prefix-cache entry with a non-empty
`ASN` and no `Holder` key. -/
def stPH : CacheState := ⟨[], [("203.0.113.0/24", ⟨900, "64500", none⟩)], [], []⟩

/-- A well-behaved remote answer for one address: the fetch does not
raise, reports `status = "ok"`, and, when its asns list is empty,
carries the `resource` field (so line 210 cannot raise). -/
def FetchOkSpec : Fetch → Prop
  | .raise => False
  | .resp status asns resource => status = "ok" ∧ (asns = [] → resource ≠ none)

/-
Helper lemmas about the dictionary operations and the pipeline steps.
-/

theorem lookupKey_setKey_self (k : String) (v : α) (l : List (String × α)) :
    lookupKey k (setKey k v l) = some v := by
  induction l with
  | nil => simp [setKey, lookupKey]
  | cons hd tl ih =>
    obtain ⟨k', v'⟩ := hd
    by_cases h : k' = k
    · simp [setKey, lookupKey, h]
    · simp [setKey, lookupKey, h, ih]

theorem containsKey_setKey_mono (k q : String) (v : α) (l : List (String × α))
    (h : containsKey k l = true) : containsKey k (setKey q v l) = true := by
  induction l with
  | nil => simp [containsKey, lookupKey] at h
  | cons hd tl ih =>
    obtain ⟨k', v'⟩ := hd
    by_cases hq : k' = q
    · subst hq
      by_cases hk : k' = k
      · subst hk
        simp [containsKey, lookupKey, setKey]
      · simp [containsKey, lookupKey, setKey, hk] at h ⊢
        exact h
    · by_cases hk : k' = k
      · subst hk
        simp [containsKey, lookupKey, setKey, hq]
      · simp [containsKey, lookupKey, setKey, hq, hk] at h ⊢
        exact ih h

theorem containsKey_append_mid (p : String) (rec : α) (l₁ l₂ : List (String × α)) :
    containsKey p (l₁ ++ (p, rec) :: l₂) = true := by
  induction l₁ with
  | nil => simp [containsKey, lookupKey]
  | cons hd tl ih =>
    obtain ⟨k', v'⟩ := hd
    by_cases hk : k' = p
    · simp [containsKey, lookupKey, hk]
    · simpa [containsKey, lookupKey, hk] using ih

theorem applyHostname_fst_ASN (env : Env) (ip : String) (r : Result) :
    (applyHostname env ip r).1.ASN = r.ASN := by
  unfold applyHostname
  split <;> rfl

theorem applyHostname_fst_TS (env : Env) (ip : String) (r : Result) :
    (applyHostname env ip r).1.TS = r.TS := by
  unfold applyHostname
  split <;> rfl

theorem applyHostname_snd (env : Env) (ip : String) (r : Result) :
    (applyHostname env ip r).2 =
      (isdigitStr r.ASN || decide (r.ASN = "not announced")) := by
  unfold applyHostname
  split <;> simp_all

theorem applyHostname_hostname (env : Env) (ip : String) (r : Result)
    (h : (applyHostname env ip r).2 = true) :
    (applyHostname env ip r).1.HostName =
      (if env.getfqdn ip = ip ∨ env.getfqdn ip = "" then "unknown" else env.getfqdn ip) := by
  unfold applyHostname at h ⊢
  split at h
  · next hcond =>
    rw [if_pos hcond]
    dsimp only
    by_cases h1 : env.getfqdn ip = ip
    · simp [h1]
    · by_cases h2 : env.getfqdn ip = ""
      · simp [h1, h2]
      · simp [h1, h2]
  · simp at h

theorem applyFetch_wf (now : Int) (r : Result) (asns : List AsnEntry)
    (resource : Option String) (hwf : asns = [] → resource ≠ none) :
    ∃ r1, applyFetch now r "ok" asns resource = .ok r1 ∧ r1.TS = now := by
  cases asns with
  | nil =>
    cases resource with
    | none => exact ((hwf rfl) rfl).elim
    | some res =>
      exact ⟨⟨now, "not announced", "", res, r.HostName⟩, by simp [applyFetch], rfl⟩
  | cons e rest =>
    cases ha : e.asn with
    | none =>
      exact ⟨⟨now, "unknown", r.Holder, r.Prefix, r.HostName⟩,
        by simp [applyFetch, ha], rfl⟩
    | some a =>
      cases hh : e.holder with
      | none =>
        exact ⟨⟨now, "unknown", r.Holder, r.Prefix, r.HostName⟩,
          by simp [applyFetch, ha, hh], rfl⟩
      | some h =>
        cases hres : resource with
        | none =>
          exact ⟨⟨now, "unknown", h, r.Prefix, r.HostName⟩,
            by simp [applyFetch, ha, hh, hres], rfl⟩
        | some res =>
          exact ⟨⟨now, a, h, res, r.HostName⟩,
            by simp [applyFetch, ha, hh, hres], rfl⟩

theorem run_fresh_hit (env : Env) (now maxCache : Int) (st : CacheState) (ip : String)
    (obj : IPObj) (rec : Result)
    (hparse : env.parseIP ip = some obj) (hroute : obj.globallyRoutable = true)
    (hlook : lookupKey obj.exploded st.IPAddressesCache = some rec)
    (hfresh : rec.TS ≥ now - maxCache) :
    GetIPInformation env now maxCache st ip =
      ⟨.ok rec, { st with IPAddressObjects := insertObj obj.exploded st.IPAddressObjects },
        false, false⟩ := by
  simp [GetIPInformation, freshAddrHit, hparse, hroute, hlook, hfresh]

theorem run_congr (env : Env) (now maxCache : Int) (st₁ st₂ : CacheState) (ip : String)
    (haddr : ∀ obj, env.parseIP ip = some obj →
      freshAddrHit now maxCache st₁.IPAddressesCache obj.exploded =
        freshAddrHit now maxCache st₂.IPAddressesCache obj.exploded)
    (hseed : ∀ obj, env.parseIP ip = some obj →
      seedResult (scanPrefixes env obj now maxCache st₁.IPPrefixesCache st₁.IPPrefixObjects).2 =
        seedResult (scanPrefixes env obj now maxCache st₂.IPPrefixesCache st₂.IPPrefixObjects).2) :
    (GetIPInformation env now maxCache st₁ ip).res =
      (GetIPInformation env now maxCache st₂ ip).res ∧
    (GetIPInformation env now maxCache st₁ ip).fetched =
      (GetIPInformation env now maxCache st₂ ip).fetched ∧
    (GetIPInformation env now maxCache st₁ ip).dnsQueried =
      (GetIPInformation env now maxCache st₂ ip).dnsQueried := by
  unfold GetIPInformation
  cases hparse : env.parseIP ip with
  | none => exact ⟨rfl, rfl, rfl⟩
  | some obj =>
    have ha := haddr obj hparse
    have hs := hseed obj hparse
    by_cases hroute : obj.globallyRoutable = false
    · simp [hroute]
    · simp only [if_neg hroute]
      try dsimp only
      rw [ha]
      cases hhit : freshAddrHit now maxCache st₂.IPAddressesCache obj.exploded with
      | some rec => exact ⟨rfl, rfl, rfl⟩
      | none =>
        try dsimp only
        rw [hs]
        by_cases hA : (seedResult
            (scanPrefixes env obj now maxCache st₂.IPPrefixesCache st₂.IPPrefixObjects).2).ASN
            = ""
        · rw [if_pos hA, if_pos hA]
          cases hf : env.fetch obj.exploded with
          | raise => exact ⟨rfl, rfl, rfl⟩
          | resp s a r =>
            try dsimp only
            cases hap : applyFetch now (seedResult
                (scanPrefixes env obj now maxCache st₂.IPPrefixesCache st₂.IPPrefixObjects).2)
                s a r with
            | error e => simp [hap]
            | ok r1 => simp [hap]
        · rw [if_neg hA, if_neg hA]
          exact ⟨rfl, rfl, rfl⟩

theorem scanPrefixes_stale_mid (env : Env) (obj : IPObj) (now maxCache : Int)
    (l₁ l₂ : List (String × PrefixRecord)) (p : String) (rec : PrefixRecord)
    (objs : List String) (hstale : ¬ rec.TS ≥ now - maxCache) :
    scanPrefixes env obj now maxCache (l₁ ++ (p, rec) :: l₂) objs =
      scanPrefixes env obj now maxCache (l₁ ++ l₂) objs := by
  induction l₁ generalizing objs with
  | nil => simp [scanPrefixes, hstale]
  | cons hd tl ih =>
    obtain ⟨q, s⟩ := hd
    by_cases hf : s.TS ≥ now - maxCache
    · by_cases hc : env.contains q obj
      · simp [scanPrefixes, hf, hc]
      · simpa [scanPrefixes, hf, hc] using ih (insertObj q objs)
    · simpa [scanPrefixes, hf] using ih objs

theorem scanPrefixes_holder_subst (env : Env) (obj : IPObj) (now maxCache : Int)
    (l₁ l₂ : List (String × PrefixRecord)) (p : String) (ts : Int) (asn : String)
    (objs : List String) :
    (scanPrefixes env obj now maxCache (l₁ ++ (p, ⟨ts, asn, none⟩) :: l₂) objs).1 =
      (scanPrefixes env obj now maxCache (l₁ ++ (p, ⟨ts, asn, some ""⟩) :: l₂) objs).1 ∧
    seedResult (scanPrefixes env obj now maxCache (l₁ ++ (p, ⟨ts, asn, none⟩) :: l₂) objs).2 =
      seedResult
        (scanPrefixes env obj now maxCache (l₁ ++ (p, ⟨ts, asn, some ""⟩) :: l₂) objs).2 := by
  induction l₁ generalizing objs with
  | nil =>
    by_cases hf : ts ≥ now - maxCache
    · by_cases hc : env.contains p obj
      · simp [scanPrefixes, hf, hc, seedResult]
      · simp [scanPrefixes, hf, hc]
    · simp [scanPrefixes, hf]
  | cons hd tl ih =>
    obtain ⟨q, s⟩ := hd
    by_cases hf : s.TS ≥ now - maxCache
    · by_cases hc : env.contains q obj
      · simp [scanPrefixes, hf, hc]
      · simpa [scanPrefixes, hf, hc] using ih (insertObj q objs)
    · simpa [scanPrefixes, hf] using ih objs

theorem run_addr_contains (env : Env) (now maxCache : Int) (st : CacheState) (ip k : String)
    (h : containsKey k st.IPAddressesCache = true) :
    containsKey k (GetIPInformation env now maxCache st ip).st.IPAddressesCache = true := by
  unfold GetIPInformation
  cases hparse : env.parseIP ip with
  | none => exact h
  | some obj =>
    by_cases hroute : obj.globallyRoutable = false
    · simpa [hroute] using h
    · simp only [if_neg hroute]
      try dsimp only
      cases hhit : freshAddrHit now maxCache st.IPAddressesCache obj.exploded with
      | some rec => simpa using h
      | none =>
        try dsimp only
        by_cases hA : (seedResult
            (scanPrefixes env obj now maxCache st.IPPrefixesCache st.IPPrefixObjects).2).ASN
            = ""
        · rw [if_pos hA]
          cases hf : env.fetch obj.exploded with
          | raise => simpa using h
          | resp s a r =>
            try dsimp only
            cases hap : applyFetch now (seedResult
                (scanPrefixes env obj now maxCache st.IPPrefixesCache st.IPPrefixObjects).2)
                s a r with
            | error e => simpa using h
            | ok r1 =>
              try dsimp only
              simp only [storeResult]
              exact containsKey_setKey_mono _ _ _ _ h
        · rw [if_neg hA]
          try dsimp only
          simp only [storeResult]
          exact containsKey_setKey_mono _ _ _ _ h

theorem run_prefix_contains (env : Env) (now maxCache : Int) (st : CacheState) (ip k : String)
    (h : containsKey k st.IPPrefixesCache = true) :
    containsKey k (GetIPInformation env now maxCache st ip).st.IPPrefixesCache = true := by
  unfold GetIPInformation
  cases hparse : env.parseIP ip with
  | none => exact h
  | some obj =>
    by_cases hroute : obj.globallyRoutable = false
    · simpa [hroute] using h
    · simp only [if_neg hroute]
      try dsimp only
      cases hhit : freshAddrHit now maxCache st.IPAddressesCache obj.exploded with
      | some rec => simpa using h
      | none =>
        try dsimp only
        by_cases hA : (seedResult
            (scanPrefixes env obj now maxCache st.IPPrefixesCache st.IPPrefixObjects).2).ASN
            = ""
        · rw [if_pos hA]
          cases hf : env.fetch obj.exploded with
          | raise => simpa using h
          | resp s a r =>
            try dsimp only
            cases hap : applyFetch now (seedResult
                (scanPrefixes env obj now maxCache st.IPPrefixesCache st.IPPrefixObjects).2)
                s a r with
            | error e => simpa using h
            | ok r1 =>
              try dsimp only
              simp only [storeResult]
              split
              · exact h
              · exact containsKey_setKey_mono _ _ _ _ h
        · rw [if_neg hA]
          try dsimp only
          simp only [storeResult]
          split
          · exact h
          · exact containsKey_setKey_mono _ _ _ _ h

/-- C3: a syntactically valid but not globally routable address makes
`GetIPInformation` return `{TS 0, ASN "unknown", Holder "", Prefix "",
HostName ""}` at once; the returned value is a constant (so neither
cache mapping is read), both cache mappings are left unchanged, and no
remote fetch or DNS query happens. -/
theorem C3_nonroutable_immediate (env : Env) (now maxCache : Int) (st : CacheState)
    (ip : String) (obj : IPObj)
    (hparse : env.parseIP ip = some obj) (hroute : obj.globallyRoutable = false) :
    (GetIPInformation env now maxCache st ip).res = .ok ⟨0, "unknown", "", "", ""⟩ ∧
    (GetIPInformation env now maxCache st ip).st.IPAddressesCache = st.IPAddressesCache ∧
    (GetIPInformation env now maxCache st ip).st.IPPrefixesCache = st.IPPrefixesCache ∧
    (GetIPInformation env now maxCache st ip).fetched = false ∧
    (GetIPInformation env now maxCache st ip).dnsQueried = false := by
  simp [GetIPInformation, hparse, hroute]

/-- Witness for C3 at a concrete non-routable address. -/
theorem C3_nonroutable_immediate_witness :
    env1.parseIP "10.0.0.1" = some objNR ∧ objNR.globallyRoutable = false ∧
    ((GetIPInformation env1 1000 604800 st0 "10.0.0.1").res = .ok ⟨0, "unknown", "", "", ""⟩ ∧
     (GetIPInformation env1 1000 604800 st0 "10.0.0.1").st.IPAddressesCache =
       st0.IPAddressesCache ∧
     (GetIPInformation env1 1000 604800 st0 "10.0.0.1").st.IPPrefixesCache =
       st0.IPPrefixesCache ∧
     (GetIPInformation env1 1000 604800 st0 "10.0.0.1").fetched = false ∧
     (GetIPInformation env1 1000 604800 st0 "10.0.0.1").dnsQueried = false) :=
  ⟨rfl, rfl, C3_nonroutable_immediate env1 1000 604800 st0 "10.0.0.1" objNR rfl rfl⟩

/-- C9: a fresh address-cache hit returns the stored record verbatim
and leaves both cache mappings unchanged (no timestamp refresh, no
write-back), with no fetch and no DNS query. -/
theorem C9_fresh_hit_frame (env : Env) (now maxCache : Int) (st : CacheState)
    (ip : String) (obj : IPObj) (rec : Result)
    (hparse : env.parseIP ip = some obj) (hroute : obj.globallyRoutable = true)
    (hlook : lookupKey obj.exploded st.IPAddressesCache = some rec)
    (hfresh : rec.TS ≥ now - maxCache) :
    (GetIPInformation env now maxCache st ip).res = .ok rec ∧
    (GetIPInformation env now maxCache st ip).st.IPAddressesCache = st.IPAddressesCache ∧
    (GetIPInformation env now maxCache st ip).st.IPPrefixesCache = st.IPPrefixesCache ∧
    (GetIPInformation env now maxCache st ip).fetched = false ∧
    (GetIPInformation env now maxCache st ip).dnsQueried = false := by
  simp [GetIPInformation, freshAddrHit, hparse, hroute, hlook, hfresh]

/-- Witness for C9: a concrete fresh hit. -/
theorem C9_fresh_hit_frame_witness :
    env1.parseIP "203.0.113.7" = some objA ∧ objA.globallyRoutable = true ∧
    lookupKey objA.exploded
      [("203.0.113.7", (⟨950, "64500", "H", "203.0.113.0/24", "h.example"⟩ : Result))] =
      some ⟨950, "64500", "H", "203.0.113.0/24", "h.example"⟩ ∧
    (950 : Int) ≥ 1000 - 604800 ∧
    (GetIPInformation env1 1000 604800
        ⟨[("203.0.113.7", ⟨950, "64500", "H", "203.0.113.0/24", "h.example"⟩)], [], [], []⟩
        "203.0.113.7").res = .ok ⟨950, "64500", "H", "203.0.113.0/24", "h.example"⟩ := by
  refine ⟨rfl, rfl, rfl, by decide, ?_⟩
  exact (C9_fresh_hit_frame env1 1000 604800
    ⟨[("203.0.113.7", ⟨950, "64500", "H", "203.0.113.0/24", "h.example"⟩)], [], [], []⟩
    "203.0.113.7" objA ⟨950, "64500", "H", "203.0.113.0/24", "h.example"⟩
    rfl rfl rfl (by decide)).1

/-- C8: whenever `GetIPInformation` raises (`InvalidAddress` on a
malformed input, or a `LookupError`-style failure around the remote
fetch), neither the address-cache mapping nor the prefix-cache mapping
is modified. -/
theorem C8_raise_no_mutation (env : Env) (now maxCache : Int) (st : CacheState)
    (ip : String) (e : Err)
    (herr : (GetIPInformation env now maxCache st ip).res = .error e) :
    (GetIPInformation env now maxCache st ip).st.IPAddressesCache = st.IPAddressesCache ∧
    (GetIPInformation env now maxCache st ip).st.IPPrefixesCache = st.IPPrefixesCache := by
  unfold GetIPInformation at *
  cases hparse : env.parseIP ip with
  | none => simp [hparse]
  | some obj =>
    simp only [hparse] at herr ⊢
    by_cases hroute : obj.globallyRoutable = false
    · simp [hroute] at herr
    · simp only [hroute, if_neg, if_false] at herr ⊢
      cases hhit : freshAddrHit now maxCache st.IPAddressesCache obj.exploded with
      | some rec => simp [hhit] at herr ⊢
      | none =>
        simp only [hhit] at herr ⊢
        by_cases hseed :
            (seedResult (scanPrefixes env obj now maxCache st.IPPrefixesCache
              st.IPPrefixObjects).2).ASN = ""
        · simp only [hseed, if_pos, if_true] at herr ⊢
          cases hf : env.fetch obj.exploded with
          | raise => simp [hf]
          | resp status asns resource =>
            simp only [hf] at herr ⊢
            cases hap : applyFetch now
                (seedResult (scanPrefixes env obj now maxCache st.IPPrefixesCache
                  st.IPPrefixObjects).2) status asns resource with
            | error e' => simp [hap]
            | ok r1 => simp [hap] at herr
        · simp [hseed] at herr

/-- Witness for C8: a transport failure leaves the caches untouched. -/
theorem C8_raise_no_mutation_witness :
    (GetIPInformation envRaise 1000 604800 st0 "203.0.113.7").res = .error .lookupError ∧
    ((GetIPInformation envRaise 1000 604800 st0 "203.0.113.7").st.IPAddressesCache =
       st0.IPAddressesCache ∧
     (GetIPInformation envRaise 1000 604800 st0 "203.0.113.7").st.IPPrefixesCache =
       st0.IPPrefixesCache) := by
  refine ⟨?_, C8_raise_no_mutation envRaise 1000 604800 st0 "203.0.113.7" .lookupError ?_⟩ <;>
    decide

/-- C1 (amended): with no fresh cache hit, a remote response whose
status is not "ok" yields no hostname lookup and no prefix-cache
write, and the returned result is `{TS 0, ASN "", Holder "",
Prefix "", HostName ""}` — but, contrary to the original claim, this
result IS stored in the address cache (lines 219-227 run
unconditionally), so the address cache can hold a record whose
timestamp is 0. -/
theorem C1_nonok_status_behaviour (env : Env) (now maxCache : Int) (st : CacheState)
    (ip : String) (obj : IPObj) (status : String) (asns : List AsnEntry)
    (resource : Option String)
    (hparse : env.parseIP ip = some obj) (hroute : obj.globallyRoutable = true)
    (hhit : freshAddrHit now maxCache st.IPAddressesCache obj.exploded = none)
    (hscan : (scanPrefixes env obj now maxCache st.IPPrefixesCache st.IPPrefixObjects).2 = none)
    (hf : env.fetch obj.exploded = .resp status asns resource)
    (hs : status ≠ "ok") :
    (GetIPInformation env now maxCache st ip).res = .ok ⟨0, "", "", "", ""⟩ ∧
    (GetIPInformation env now maxCache st ip).dnsQueried = false ∧
    (GetIPInformation env now maxCache st ip).st.IPAddressesCache =
      setKey obj.exploded ⟨0, "", "", "", ""⟩ st.IPAddressesCache ∧
    (GetIPInformation env now maxCache st ip).st.IPPrefixesCache = st.IPPrefixesCache := by
  simp [GetIPInformation, hparse, hroute, hhit, hscan, seedResult, hf, applyFetch, hs,
    applyHostname, isdigitStr, storeResult]

/-- Witness for C1 (amended) at a concrete non-"ok" response. -/
theorem C1_nonok_status_behaviour_witness :
    envNonOk.parseIP "203.0.113.7" = some objA ∧
    objA.globallyRoutable = true ∧
    freshAddrHit 1000000 604800 st0.IPAddressesCache objA.exploded = none ∧
    (scanPrefixes envNonOk objA 1000000 604800 st0.IPPrefixesCache st0.IPPrefixObjects).2 =
      none ∧
    envNonOk.fetch objA.exploded = .resp "maintenance" [] none ∧
    "maintenance" ≠ "ok" ∧
    ((GetIPInformation envNonOk 1000000 604800 st0 "203.0.113.7").res =
      .ok ⟨0, "", "", "", ""⟩ ∧
     (GetIPInformation envNonOk 1000000 604800 st0 "203.0.113.7").dnsQueried = false ∧
     (GetIPInformation envNonOk 1000000 604800 st0 "203.0.113.7").st.IPAddressesCache =
       setKey objA.exploded ⟨0, "", "", "", ""⟩ st0.IPAddressesCache ∧
     (GetIPInformation envNonOk 1000000 604800 st0 "203.0.113.7").st.IPPrefixesCache =
       st0.IPPrefixesCache) :=
  ⟨rfl, rfl, rfl, rfl, rfl, by decide,
    C1_nonok_status_behaviour envNonOk 1000000 604800 st0 "203.0.113.7" objA
      "maintenance" [] none rfl rfl rfl rfl rfl (by decide)⟩

/-- Counterexample to C1 as stated: after a non-"ok" status response
the address cache DOES hold a record for the queried address, and that
record's timestamp is 0 (not a real fetch timestamp). -/
theorem C1_zero_ts_stored_cex :
    (GetIPInformation envNonOk 1000000 604800 st0 "203.0.113.7").fetched = true ∧
    lookupKey "203.0.113.7"
      (GetIPInformation envNonOk 1000000 604800 st0 "203.0.113.7").st.IPAddressesCache =
      some ⟨0, "", "", "", ""⟩ := by
  decide

/-- C2 (amended): with no fresh address-cache hit, if the prefix scan
matches a fresh containing entry `(p, rec)` whose `ASN` is non-empty,
the call returns `{TS rec.TS, ASN rec.ASN, Holder rec.Holder-or-"",
Prefix p, HostName ""}`, performs no remote fetch and no DNS query,
and writes exactly this record into the address cache keyed by the
canonical address (hostname stays empty after the promotion). -/
theorem C2_prefix_hit_promotion (env : Env) (now maxCache : Int) (st : CacheState)
    (ip : String) (obj : IPObj) (po : List String) (p : String) (rec : PrefixRecord)
    (hparse : env.parseIP ip = some obj) (hroute : obj.globallyRoutable = true)
    (hhit : freshAddrHit now maxCache st.IPAddressesCache obj.exploded = none)
    (hscan : scanPrefixes env obj now maxCache st.IPPrefixesCache st.IPPrefixObjects =
      (po, some (p, rec)))
    (hasn : rec.ASN ≠ "") :
    (GetIPInformation env now maxCache st ip).res =
      .ok ⟨rec.TS, rec.ASN, rec.Holder.getD "", p, ""⟩ ∧
    (GetIPInformation env now maxCache st ip).fetched = false ∧
    (GetIPInformation env now maxCache st ip).dnsQueried = false ∧
    (GetIPInformation env now maxCache st ip).st.IPAddressesCache =
      setKey obj.exploded ⟨rec.TS, rec.ASN, rec.Holder.getD "", p, ""⟩
        st.IPAddressesCache := by
  simp [GetIPInformation, hparse, hroute, hhit, hscan, seedResult, hasn, storeResult]

/-- Witness for C2 (amended) at a concrete fresh prefix hit. -/
theorem C2_prefix_hit_promotion_witness :
    env1.parseIP "203.0.113.7" = some objA ∧
    objA.globallyRoutable = true ∧
    freshAddrHit 1000 604800 stP.IPAddressesCache objA.exploded = none ∧
    scanPrefixes env1 objA 1000 604800 stP.IPPrefixesCache stP.IPPrefixObjects =
      (["203.0.113.0/24"], some ("203.0.113.0/24", ⟨900, "64500", some "H"⟩)) ∧
    "64500" ≠ "" ∧
    ((GetIPInformation env1 1000 604800 stP "203.0.113.7").res =
      .ok ⟨900, "64500", "H", "203.0.113.0/24", ""⟩ ∧
     (GetIPInformation env1 1000 604800 stP "203.0.113.7").fetched = false ∧
     (GetIPInformation env1 1000 604800 stP "203.0.113.7").dnsQueried = false ∧
     (GetIPInformation env1 1000 604800 stP "203.0.113.7").st.IPAddressesCache =
       setKey objA.exploded ⟨900, "64500", "H", "203.0.113.0/24", ""⟩
         stP.IPAddressesCache) :=
  ⟨rfl, rfl, rfl, by decide, by decide,
    C2_prefix_hit_promotion env1 1000 604800 stP "203.0.113.7" objA
      ["203.0.113.0/24"] "203.0.113.0/24" ⟨900, "64500", some "H"⟩
      rfl rfl rfl (by decide) (by decide)⟩

/-- Counterexample to C2 as stated: a fresh prefix-cache entry whose
stored `ASN` is the empty string does contain the queried address and
is matched by the scan, yet the engine still performs a remote fetch
(line 186 treats an empty `ASN` as "no cache hit"), contradicting
"performs no remote fetch". -/
theorem C2_empty_asn_fetches_cex :
    scanPrefixes env1 objA 1000 604800 stPE.IPPrefixesCache stPE.IPPrefixObjects =
      (["203.0.113.0/24"], some ("203.0.113.0/24", ⟨900, "", none⟩)) ∧
    (GetIPInformation env1 1000 604800 stPE "203.0.113.7").fetched = true := by
  decide

theorem run_dns_iff (env : Env) (now maxCache : Int) (st : CacheState) (ip : String) :
    (GetIPInformation env now maxCache st ip).dnsQueried = true ↔
      ((GetIPInformation env now maxCache st ip).fetched = true ∧
       ∃ r, (GetIPInformation env now maxCache st ip).res = .ok r ∧
         (isdigitStr r.ASN = true ∨ r.ASN = "not announced")) := by
  unfold GetIPInformation
  cases hparse : env.parseIP ip with
  | none => simp
  | some obj =>
    by_cases hroute : obj.globallyRoutable = false
    · simp [hroute]
    · simp only [if_neg hroute]
      try dsimp only
      cases hhit : freshAddrHit now maxCache st.IPAddressesCache obj.exploded with
      | some rec => simp
      | none =>
        try dsimp only
        by_cases hA : (seedResult
            (scanPrefixes env obj now maxCache st.IPPrefixesCache st.IPPrefixObjects).2).ASN
            = ""
        · rw [if_pos hA]
          cases hf : env.fetch obj.exploded with
          | raise => simp
          | resp s a r =>
            try dsimp only
            cases hap : applyFetch now (seedResult
                (scanPrefixes env obj now maxCache st.IPPrefixesCache st.IPPrefixObjects).2)
                s a r with
            | error e => simp [hap]
            | ok r1 => simp [hap, applyHostname_snd, applyHostname_fst_ASN]
        · rw [if_neg hA]
          simp

theorem run_dns_hostname (env : Env) (now maxCache : Int) (st : CacheState) (ip : String)
    (obj : IPObj) (hparse : env.parseIP ip = some obj) :
    ∀ r, (GetIPInformation env now maxCache st ip).res = .ok r →
      (GetIPInformation env now maxCache st ip).dnsQueried = true →
      r.HostName =
        (if env.getfqdn obj.exploded = obj.exploded ∨ env.getfqdn obj.exploded = ""
         then "unknown" else env.getfqdn obj.exploded) := by
  unfold GetIPInformation
  simp only [hparse]
  by_cases hroute : obj.globallyRoutable = false
  · simp [hroute]
  · simp only [if_neg hroute]
    try dsimp only
    cases hhit : freshAddrHit now maxCache st.IPAddressesCache obj.exploded with
    | some rec => simp
    | none =>
      try dsimp only
      by_cases hA : (seedResult
          (scanPrefixes env obj now maxCache st.IPPrefixesCache st.IPPrefixObjects).2).ASN
          = ""
      · rw [if_pos hA]
        cases hf : env.fetch obj.exploded with
        | raise => simp
        | resp s a r =>
          try dsimp only
          cases hap : applyFetch now (seedResult
              (scanPrefixes env obj now maxCache st.IPPrefixesCache st.IPPrefixObjects).2)
              s a r with
          | error e => simp [hap]
          | ok r1 =>
            intro r hres hdns
            simp only [hap] at hres hdns ⊢
            have h1 : (applyHostname env obj.exploded r1).1 = r := by
              simpa using hres
            have h2 := applyHostname_hostname env obj.exploded r1 (by simpa using hdns)
            rw [← h1, h2]
      · rw [if_neg hA]
        simp

/-- C5 (amended): when the remote fetch reaches the pipeline (no fresh
cache hit, empty seed ASN) and returns a transport-successful payload
with `status = "ok"` and a non-empty asns list whose field accesses
fail (missing `asn`, `holder` or `resource`), `GetIPInformation` does
not raise: `ASN` becomes `"unknown"`, `TS` becomes the fetch time
(line 194 runs before the `try`), `Prefix` and `HostName` keep their
prior values, and `Holder` keeps its prior value unless both `asn` and
`holder` were read successfully before a missing `resource`, in which
case `Holder` holds the fetched holder string. -/
theorem C5_parse_failure_degrades (env : Env) (now maxCache : Int) (st : CacheState)
    (ip : String) (obj : IPObj) (po : List String) (pm : Option (String × PrefixRecord))
    (e : AsnEntry) (rest : List AsnEntry) (resource : Option String)
    (hparse : env.parseIP ip = some obj) (hroute : obj.globallyRoutable = true)
    (hhit : freshAddrHit now maxCache st.IPAddressesCache obj.exploded = none)
    (hscan : scanPrefixes env obj now maxCache st.IPPrefixesCache st.IPPrefixObjects =
      (po, pm))
    (hseed : (seedResult pm).ASN = "")
    (hf : env.fetch obj.exploded = .resp "ok" (e :: rest) resource)
    (hfail : e.asn = none ∨ e.holder = none ∨ resource = none) :
    ((e.asn = none ∨ e.holder = none) →
      (GetIPInformation env now maxCache st ip).res =
        .ok { seedResult pm with TS := now, ASN := "unknown" }) ∧
    (∀ a h, e.asn = some a → e.holder = some h →
      (GetIPInformation env now maxCache st ip).res =
        .ok { seedResult pm with TS := now, ASN := "unknown", Holder := h }) := by
  have hu1 : isdigitStr "unknown" = false := by decide
  constructor
  · intro hah
    rcases hah with ha | hh
    · simp [GetIPInformation, hparse, hroute, hhit, hscan, hseed, hf, applyFetch, ha,
        applyHostname, hu1, storeResult]
    · cases ha : e.asn with
      | none =>
        simp [GetIPInformation, hparse, hroute, hhit, hscan, hseed, hf, applyFetch, ha,
          applyHostname, hu1, storeResult]
      | some a =>
        simp [GetIPInformation, hparse, hroute, hhit, hscan, hseed, hf, applyFetch, ha, hh,
          applyHostname, hu1, storeResult]
  · intro a h ha hh
    have hres : resource = none := by
      rcases hfail with h' | h' | h' <;> simp_all
    simp [GetIPInformation, hparse, hroute, hhit, hscan, hseed, hf, applyFetch, ha, hh, hres,
      applyHostname, hu1, storeResult]

/-- Witness for C5 (amended): a payload with a readable asn and holder
but no resource field. -/
theorem C5_parse_failure_degrades_witness :
    envMissRes.fetch objA.exploded = .resp "ok" [⟨some "64500", some "ExHolder"⟩] none ∧
    (GetIPInformation envMissRes 1000 604800 st0 "203.0.113.7").res =
      .ok ⟨1000, "unknown", "ExHolder", "", ""⟩ :=
  ⟨rfl,
    (C5_parse_failure_degrades envMissRes 1000 604800 st0 "203.0.113.7" objA
      [] none ⟨some "64500", some "ExHolder"⟩ [] none
      rfl rfl rfl rfl rfl rfl (Or.inr (Or.inr rfl))).2 "64500" "ExHolder" rfl rfl⟩

/-- Counterexample to C5 as stated: on a payload whose `resource`
access fails after `asn` and `holder` were read, the result's `TS` is
the fetch time (not its prior value 0) and its `Holder` is the fetched
holder string (not its prior value ""), so not "all other result
fields keep their prior values". -/
theorem C5_prior_values_cex :
    (GetIPInformation envMissRes 1000 604800 st0 "203.0.113.7").res =
      .ok ⟨1000, "unknown", "ExHolder", "", ""⟩ ∧
    (GetIPInformation envMissRes 1000 604800 st0 "203.0.113.7").fetched = true := by
  decide

/-- C6 (amended): `socket.getfqdn` is called iff the run took the
remote-fetch path and the returned result's `ASN` is a non-negative
integer string or `"not announced"`; it is never called when the
returned `ASN` is `"unknown"`, and never on a cache-hit path (the
hostname block, lines 212-217, sits inside the no-cache-hit branch, so
a prefix hit with a digit `ASN` does not trigger it).  When it is
called, a name equal to the canonical address or empty records
`HostName = "unknown"`, otherwise the returned name. -/
theorem C6_dns_gating (env : Env) (now maxCache : Int) (st : CacheState) (ip : String) :
    ((GetIPInformation env now maxCache st ip).dnsQueried = true ↔
      ((GetIPInformation env now maxCache st ip).fetched = true ∧
       ∃ r, (GetIPInformation env now maxCache st ip).res = .ok r ∧
         (isdigitStr r.ASN = true ∨ r.ASN = "not announced"))) ∧
    (∀ r, (GetIPInformation env now maxCache st ip).res = .ok r → r.ASN = "unknown" →
      (GetIPInformation env now maxCache st ip).dnsQueried = false) ∧
    (∀ obj r, env.parseIP ip = some obj →
      (GetIPInformation env now maxCache st ip).res = .ok r →
      (GetIPInformation env now maxCache st ip).dnsQueried = true →
      r.HostName =
        (if env.getfqdn obj.exploded = obj.exploded ∨ env.getfqdn obj.exploded = ""
         then "unknown" else env.getfqdn obj.exploded)) := by
  refine ⟨run_dns_iff env now maxCache st ip, ?_,
    fun obj r hp hres hdns => run_dns_hostname env now maxCache st ip obj hp r hres hdns⟩
  intro r hres hasn
  cases hb : (GetIPInformation env now maxCache st ip).dnsQueried with
  | false => rfl
  | true =>
    obtain ⟨-, r', hok, hor⟩ := (run_dns_iff env now maxCache st ip).mp hb
    rw [hres] at hok
    cases hok
    rw [hasn] at hor
    rcases hor with h' | h' <;> revert h' <;> decide

/-- Witness for C6 (amended): a run where the DNS lookup fires and
records the returned name. -/
theorem C6_dns_gating_witness :
    env1.parseIP "203.0.113.7" = some objA ∧
    (GetIPInformation env1 1000 604800 st0 "203.0.113.7").res =
      .ok ⟨1000, "64500", "ExHolder", "203.0.113.0/24", "host.example.net"⟩ ∧
    (GetIPInformation env1 1000 604800 st0 "203.0.113.7").dnsQueried = true ∧
    (⟨1000, "64500", "ExHolder", "203.0.113.0/24", "host.example.net"⟩ : Result).HostName =
      (if env1.getfqdn objA.exploded = objA.exploded ∨ env1.getfqdn objA.exploded = ""
       then "unknown" else env1.getfqdn objA.exploded) :=
  ⟨rfl, by decide, by decide,
    (C6_dns_gating env1 1000 604800 st0 "203.0.113.7").2.2 objA
      ⟨1000, "64500", "ExHolder", "203.0.113.0/24", "host.example.net"⟩
      rfl (by decide) (by decide)⟩

/-- Counterexample to C6 as stated: on a fresh prefix hit the returned
`ASN` is the digit string "64500", yet no reverse-DNS lookup is
performed — the "if" direction of the claimed equivalence fails on
cache-hit paths. -/
theorem C6_prefix_hit_no_dns_cex :
    (GetIPInformation env1 1000 604800 stP "203.0.113.7").res =
      .ok ⟨900, "64500", "H", "203.0.113.0/24", ""⟩ ∧
    isdigitStr "64500" = true ∧
    (GetIPInformation env1 1000 604800 stP "203.0.113.7").dnsQueried = false := by
  decide

theorem scanPrefixes_match_fresh (env : Env) (obj : IPObj) (now maxCache : Int) :
    ∀ (l : List (String × PrefixRecord)) (objs po : List String) (p : String)
      (rec : PrefixRecord),
      scanPrefixes env obj now maxCache l objs = (po, some (p, rec)) →
      rec.TS ≥ now - maxCache := by
  intro l
  induction l with
  | nil =>
    intro objs po p rec h
    simp [scanPrefixes] at h
  | cons hd tl ih =>
    obtain ⟨q, s⟩ := hd
    intro objs po p rec h
    by_cases hf : s.TS ≥ now - maxCache
    · by_cases hc : env.contains q obj
      · simp only [scanPrefixes, if_pos hf, if_pos hc, Prod.mk.injEq,
          Option.some.injEq] at h
        obtain ⟨-, -, h4⟩ := h
        exact h4 ▸ hf
      · exact ih (insertObj q objs) po p rec (by simpa [scanPrefixes, hf, hc] using h)
    · exact ih objs po p rec (by simpa [scanPrefixes, hf] using h)

theorem run_fetched_stores (env : Env) (now maxCache : Int) (st : CacheState) (ip : String)
    (hwf : ∀ obj, env.parseIP ip = some obj → FetchOkSpec (env.fetch obj.exploded)) :
    (GetIPInformation env now maxCache st ip).fetched = true →
    ∃ obj r, env.parseIP ip = some obj ∧ obj.globallyRoutable = true ∧
      (GetIPInformation env now maxCache st ip).res = .ok r ∧ r.TS = now ∧
      lookupKey obj.exploded
        (GetIPInformation env now maxCache st ip).st.IPAddressesCache = some r := by
  unfold GetIPInformation
  cases hparse : env.parseIP ip with
  | none => intro h; cases h
  | some obj =>
    have hwfo := hwf obj hparse
    by_cases hroute : obj.globallyRoutable = false
    · simp [hroute]
    · simp only [if_neg hroute]
      try dsimp only
      cases hhit : freshAddrHit now maxCache st.IPAddressesCache obj.exploded with
      | some rec => simp
      | none =>
        try dsimp only
        by_cases hA : (seedResult
            (scanPrefixes env obj now maxCache st.IPPrefixesCache st.IPPrefixObjects).2).ASN
            = ""
        · rw [if_pos hA]
          cases hf : env.fetch obj.exploded with
          | raise =>
            rw [hf] at hwfo
            exact hwfo.elim
          | resp s a r0 =>
            rw [hf] at hwfo
            obtain ⟨hsok, hr⟩ := hwfo
            subst hsok
            obtain ⟨r1, hap, hTS⟩ := applyFetch_wf now (seedResult
              (scanPrefixes env obj now maxCache st.IPPrefixesCache st.IPPrefixObjects).2)
              a r0 hr
            try dsimp only
            rw [hap]
            try dsimp only
            refine fun _ => ⟨obj, (applyHostname env obj.exploded r1).1, rfl, ?_, rfl,
              ?_, ?_⟩
            · cases hg : obj.globallyRoutable
              · exact absurd hg hroute
              · rfl
            · rw [applyHostname_fst_TS, hTS]
            · simp only [storeResult]
              try dsimp only
              exact lookupKey_setKey_self _ _ _
        · rw [if_neg hA]
          simp

/-- C4 (amended): two `GetIPInformation` calls for the same address,
the second within `MAX_CACHE` seconds of the first, perform at most
one remote fetch in total — provided the remote service's answer for
this address is transport-successful, has `status = "ok"` and is
well-formed enough not to raise (a `resource` field is present when
the asns list is empty).  Without that proviso the first call can
store a timestamp-0 record that the second call sees as stale. -/
theorem C4_ttl_single_fetch (env : Env) (now₁ now₂ maxCache : Int) (st : CacheState)
    (ip : String)
    (h12 : now₁ ≤ now₂) (hwin : now₂ ≤ now₁ + maxCache)
    (hwf : ∀ obj, env.parseIP ip = some obj → FetchOkSpec (env.fetch obj.exploded)) :
    (GetIPInformation env now₁ maxCache st ip).fetched.toNat +
      (GetIPInformation env now₂ maxCache
        (GetIPInformation env now₁ maxCache st ip).st ip).fetched.toNat ≤ 1 := by
  cases hb : (GetIPInformation env now₁ maxCache st ip).fetched with
  | false =>
    cases (GetIPInformation env now₂ maxCache
      (GetIPInformation env now₁ maxCache st ip).st ip).fetched <;> simp
  | true =>
    obtain ⟨obj, r, hparse, hroute, hres, hTS, hlook⟩ :=
      run_fetched_stores env now₁ maxCache st ip hwf hb
    have hfresh : r.TS ≥ now₂ - maxCache := by rw [hTS]; omega
    have h2 := run_fresh_hit env now₂ maxCache
      (GetIPInformation env now₁ maxCache st ip).st ip obj r hparse hroute hlook hfresh
    rw [h2]
    simp

/-- Witness for C4 (amended) with a well-behaved service. -/
theorem C4_ttl_single_fetch_witness :
    (1000 : Int) ≤ 2000 ∧ (2000 : Int) ≤ 1000 + 604800 ∧
    ((GetIPInformation env1 1000 604800 st0 "203.0.113.7").fetched.toNat +
      (GetIPInformation env1 2000 604800
        (GetIPInformation env1 1000 604800 st0 "203.0.113.7").st "203.0.113.7").fetched.toNat
      ≤ 1) := by
  refine ⟨by decide, by decide,
    C4_ttl_single_fetch env1 1000 2000 604800 st0 "203.0.113.7" (by decide) (by decide) ?_⟩
  intro obj hobj
  have hobjA : obj = objA := by
    have : some objA = some obj := by simpa [env1] using hobj
    exact (Option.some.inj this).symm
  subst hobjA
  exact ⟨rfl, by simp⟩

/-- Counterexample to C4 as stated: with a service answering a
non-"ok" status, the first call stores a timestamp-0 record, the
second call (1 second later, far within the TTL window) finds it
stale and fetches again — two remote fetches in total. -/
theorem C4_nonok_two_fetches_cex :
    (GetIPInformation envNonOk 1000000 604800 st0 "203.0.113.7").fetched = true ∧
    (GetIPInformation envNonOk 1000001 604800
      (GetIPInformation envNonOk 1000000 604800 st0 "203.0.113.7").st
      "203.0.113.7").fetched = true ∧
    (1000001 : Int) ≤ 1000000 + 604800 := by
  decide

/-- C7: freshness gating.  (1) A present address entry with
`TS >= now - MAX_CACHE` is used: the call returns it.  (2) A stale
address entry is skipped exactly as if absent — the observable outcome
(result / fetch flag / DNS flag) equals that of the run with the entry
removed — and its key is not deleted from the mapping.  (3) The same
for a stale prefix entry.  (4) Any prefix entry returned by the scan
as the match is fresh. -/
theorem C7_freshness_gating :
    (∀ (env : Env) (now maxCache : Int) (st : CacheState) (ip : String) (obj : IPObj)
      (rec : Result),
      env.parseIP ip = some obj → obj.globallyRoutable = true →
      lookupKey obj.exploded st.IPAddressesCache = some rec → rec.TS ≥ now - maxCache →
      (GetIPInformation env now maxCache st ip).res = .ok rec) ∧
    (∀ (env : Env) (now maxCache : Int) (st : CacheState) (ip : String) (obj : IPObj)
      (rec : Result),
      env.parseIP ip = some obj →
      lookupKey obj.exploded st.IPAddressesCache = some rec → ¬rec.TS ≥ now - maxCache →
      lookupKey obj.exploded (removeKey obj.exploded st.IPAddressesCache) = none →
      ((GetIPInformation env now maxCache st ip).res =
         (GetIPInformation env now maxCache
           { st with IPAddressesCache := removeKey obj.exploded st.IPAddressesCache }
           ip).res ∧
       (GetIPInformation env now maxCache st ip).fetched =
         (GetIPInformation env now maxCache
           { st with IPAddressesCache := removeKey obj.exploded st.IPAddressesCache }
           ip).fetched ∧
       (GetIPInformation env now maxCache st ip).dnsQueried =
         (GetIPInformation env now maxCache
           { st with IPAddressesCache := removeKey obj.exploded st.IPAddressesCache }
           ip).dnsQueried) ∧
      containsKey obj.exploded
        (GetIPInformation env now maxCache st ip).st.IPAddressesCache = true) ∧
    (∀ (env : Env) (now maxCache : Int) (ip : String) (addr : List (String × Result))
      (ao po : List String) (l₁ l₂ : List (String × PrefixRecord)) (p : String)
      (rec : PrefixRecord),
      ¬rec.TS ≥ now - maxCache →
      ((GetIPInformation env now maxCache ⟨addr, l₁ ++ (p, rec) :: l₂, ao, po⟩ ip).res =
         (GetIPInformation env now maxCache ⟨addr, l₁ ++ l₂, ao, po⟩ ip).res ∧
       (GetIPInformation env now maxCache ⟨addr, l₁ ++ (p, rec) :: l₂, ao, po⟩ ip).fetched =
         (GetIPInformation env now maxCache ⟨addr, l₁ ++ l₂, ao, po⟩ ip).fetched ∧
       (GetIPInformation env now maxCache ⟨addr, l₁ ++ (p, rec) :: l₂, ao, po⟩
           ip).dnsQueried =
         (GetIPInformation env now maxCache ⟨addr, l₁ ++ l₂, ao, po⟩ ip).dnsQueried) ∧
      containsKey p (GetIPInformation env now maxCache ⟨addr, l₁ ++ (p, rec) :: l₂, ao, po⟩
        ip).st.IPPrefixesCache = true) ∧
    (∀ (env : Env) (obj : IPObj) (now maxCache : Int)
      (l : List (String × PrefixRecord)) (objs po : List String) (p : String)
      (rec : PrefixRecord),
      scanPrefixes env obj now maxCache l objs = (po, some (p, rec)) →
      rec.TS ≥ now - maxCache) := by
  refine ⟨?_, ?_, ?_, ?_⟩
  · intro env now maxCache st ip obj rec hp hr hl hf
    rw [run_fresh_hit env now maxCache st ip obj rec hp hr hl hf]
  · intro env now maxCache st ip obj rec hp hl hstale hrm
    constructor
    · apply run_congr
      · intro obj' hp'
        rw [hp] at hp'
        injection hp' with h
        subst h
        try dsimp only
        simp [freshAddrHit, hl, hstale, hrm]
      · intro obj' hp'
        rfl
    · apply run_addr_contains
      simp [containsKey, hl]
  · intro env now maxCache ip addr ao po l₁ l₂ p rec hstale
    constructor
    · apply run_congr
      · intro obj hp
        rfl
      · intro obj hp
        try dsimp only
        rw [scanPrefixes_stale_mid env obj now maxCache l₁ l₂ p rec po hstale]
    · apply run_prefix_contains
      exact containsKey_append_mid p rec l₁ l₂
  · intro env obj now maxCache l objs po p rec h
    exact scanPrefixes_match_fresh env obj now maxCache l objs po p rec h

/-- Witness for C7: concrete instances of the four parts. -/
theorem C7_freshness_gating_witness :
    ((GetIPInformation env1 1000 604800
        ⟨[("203.0.113.7", ⟨950, "64500", "H", "203.0.113.0/24", "h.example"⟩)], [], [], []⟩
        "203.0.113.7").res = .ok ⟨950, "64500", "H", "203.0.113.0/24", "h.example"⟩) ∧
    (((GetIPInformation env1 1000000 604800 stSt "203.0.113.7").res =
        (GetIPInformation env1 1000000 604800
          { stSt with IPAddressesCache := removeKey objA.exploded stSt.IPAddressesCache }
          "203.0.113.7").res ∧
      (GetIPInformation env1 1000000 604800 stSt "203.0.113.7").fetched =
        (GetIPInformation env1 1000000 604800
          { stSt with IPAddressesCache := removeKey objA.exploded stSt.IPAddressesCache }
          "203.0.113.7").fetched ∧
      (GetIPInformation env1 1000000 604800 stSt "203.0.113.7").dnsQueried =
        (GetIPInformation env1 1000000 604800
          { stSt with IPAddressesCache := removeKey objA.exploded stSt.IPAddressesCache }
          "203.0.113.7").dnsQueried) ∧
     containsKey objA.exploded
       (GetIPInformation env1 1000000 604800 stSt "203.0.113.7").st.IPAddressesCache
       = true) ∧
    (((GetIPInformation env1 1000000 604800
         ⟨[], [] ++ ("203.0.113.0/24", ⟨1, "64500", some "H"⟩) :: [], [], []⟩
         "203.0.113.7").res =
        (GetIPInformation env1 1000000 604800 ⟨[], [] ++ [], [], []⟩ "203.0.113.7").res ∧
      (GetIPInformation env1 1000000 604800
         ⟨[], [] ++ ("203.0.113.0/24", ⟨1, "64500", some "H"⟩) :: [], [], []⟩
         "203.0.113.7").fetched =
        (GetIPInformation env1 1000000 604800 ⟨[], [] ++ [], [], []⟩
          "203.0.113.7").fetched ∧
      (GetIPInformation env1 1000000 604800
         ⟨[], [] ++ ("203.0.113.0/24", ⟨1, "64500", some "H"⟩) :: [], [], []⟩
         "203.0.113.7").dnsQueried =
        (GetIPInformation env1 1000000 604800 ⟨[], [] ++ [], [], []⟩
          "203.0.113.7").dnsQueried) ∧
     containsKey "203.0.113.0/24"
       (GetIPInformation env1 1000000 604800
         ⟨[], [] ++ ("203.0.113.0/24", ⟨1, "64500", some "H"⟩) :: [], [], []⟩
         "203.0.113.7").st.IPPrefixesCache = true) ∧
    ((⟨900, "64500", some "H"⟩ : PrefixRecord).TS ≥ 1000 - 604800) := by
  refine ⟨?_, ?_, ?_, ?_⟩
  · exact C7_freshness_gating.1 env1 1000 604800
      ⟨[("203.0.113.7", ⟨950, "64500", "H", "203.0.113.0/24", "h.example"⟩)], [], [], []⟩
      "203.0.113.7" objA ⟨950, "64500", "H", "203.0.113.0/24", "h.example"⟩
      rfl rfl rfl (by decide)
  · exact C7_freshness_gating.2.1 env1 1000000 604800 stSt "203.0.113.7" objA
      ⟨1, "64500", "H", "203.0.113.0/24", "old.example"⟩ rfl rfl (by decide) (by decide)
  · exact C7_freshness_gating.2.2.1 env1 1000000 604800 "203.0.113.7" [] [] [] [] []
      "203.0.113.0/24" ⟨1, "64500", some "H"⟩ (by decide)
  · exact C7_freshness_gating.2.2.2 env1 objA 1000 604800 stP.IPPrefixesCache []
      ["203.0.113.0/24"] "203.0.113.0/24" ⟨900, "64500", some "H"⟩ (by decide)

/-- C10 (amended): a prefix record lacking the `Holder` field never
causes an error — replacing the missing field by the empty string is
observationally indistinguishable (same result, same fetch/DNS
activity) — and a fresh prefix hit on such a record yields
`Holder = ""` in the result provided the record's `ASN` is non-empty
(an empty `ASN` sends the lookup on to the remote fetch, which may set
another holder). -/
theorem C10_missing_holder_safe :
    (∀ (env : Env) (now maxCache : Int) (ip : String) (addr : List (String × Result))
      (ao po : List String) (l₁ l₂ : List (String × PrefixRecord)) (p : String)
      (ts : Int) (asn : String),
      (GetIPInformation env now maxCache ⟨addr, l₁ ++ (p, ⟨ts, asn, none⟩) :: l₂, ao, po⟩
          ip).res =
        (GetIPInformation env now maxCache
          ⟨addr, l₁ ++ (p, ⟨ts, asn, some ""⟩) :: l₂, ao, po⟩ ip).res ∧
      (GetIPInformation env now maxCache ⟨addr, l₁ ++ (p, ⟨ts, asn, none⟩) :: l₂, ao, po⟩
          ip).fetched =
        (GetIPInformation env now maxCache
          ⟨addr, l₁ ++ (p, ⟨ts, asn, some ""⟩) :: l₂, ao, po⟩ ip).fetched ∧
      (GetIPInformation env now maxCache ⟨addr, l₁ ++ (p, ⟨ts, asn, none⟩) :: l₂, ao, po⟩
          ip).dnsQueried =
        (GetIPInformation env now maxCache
          ⟨addr, l₁ ++ (p, ⟨ts, asn, some ""⟩) :: l₂, ao, po⟩ ip).dnsQueried) ∧
    (∀ (env : Env) (now maxCache : Int) (st : CacheState) (ip : String) (obj : IPObj)
      (po : List String) (p : String) (ts : Int) (asn : String),
      env.parseIP ip = some obj → obj.globallyRoutable = true →
      freshAddrHit now maxCache st.IPAddressesCache obj.exploded = none →
      scanPrefixes env obj now maxCache st.IPPrefixesCache st.IPPrefixObjects =
        (po, some (p, ⟨ts, asn, none⟩)) →
      asn ≠ "" →
      (GetIPInformation env now maxCache st ip).res = .ok ⟨ts, asn, "", p, ""⟩) := by
  constructor
  · intro env now maxCache ip addr ao po l₁ l₂ p ts asn
    apply run_congr
    · intro obj hp
      rfl
    · intro obj hp
      try dsimp only
      exact (scanPrefixes_holder_subst env obj now maxCache l₁ l₂ p ts asn po).2
  · intro env now maxCache st ip obj po p ts asn hp hr hhit hscan hasn
    simp [GetIPInformation, hp, hr, hhit, hscan, seedResult, hasn, storeResult]

/-- Witness for C10 (amended): a missing-`Holder` record behaves like
a `Holder = ""` record, and a fresh hit on one with a non-empty ASN
reports an empty holder. -/
theorem C10_missing_holder_safe_witness :
    ((GetIPInformation env1 1000 604800
        ⟨[], [] ++ ("203.0.113.0/24", ⟨900, "64500", none⟩) :: [], [], []⟩
        "203.0.113.7").res =
      (GetIPInformation env1 1000 604800
        ⟨[], [] ++ ("203.0.113.0/24", ⟨900, "64500", some ""⟩) :: [], [], []⟩
        "203.0.113.7").res ∧
     (GetIPInformation env1 1000 604800
        ⟨[], [] ++ ("203.0.113.0/24", ⟨900, "64500", none⟩) :: [], [], []⟩
        "203.0.113.7").fetched =
      (GetIPInformation env1 1000 604800
        ⟨[], [] ++ ("203.0.113.0/24", ⟨900, "64500", some ""⟩) :: [], [], []⟩
        "203.0.113.7").fetched ∧
     (GetIPInformation env1 1000 604800
        ⟨[], [] ++ ("203.0.113.0/24", ⟨900, "64500", none⟩) :: [], [], []⟩
        "203.0.113.7").dnsQueried =
      (GetIPInformation env1 1000 604800
        ⟨[], [] ++ ("203.0.113.0/24", ⟨900, "64500", some ""⟩) :: [], [], []⟩
        "203.0.113.7").dnsQueried) ∧
    (GetIPInformation env1 1000 604800 stPH "203.0.113.7").res =
      .ok ⟨900, "64500", "", "203.0.113.0/24", ""⟩ := by
  constructor
  · exact C10_missing_holder_safe.1 env1 1000 604800 "203.0.113.7" [] [] [] [] []
      "203.0.113.0/24" 900 "64500"
  · exact C10_missing_holder_safe.2 env1 1000 604800 stPH "203.0.113.7" objA
      ["203.0.113.0/24"] "203.0.113.0/24" 900 "64500" rfl rfl rfl (by decide) (by decide)

/-- Counterexample to C10 as stated: a fresh prefix hit on a record
that lacks `Holder` AND stores an empty `ASN` does not yield
`Holder = ""`: the empty `ASN` routes the call to the remote fetch,
whose holder string ends up in the result. -/
theorem C10_empty_asn_holder_cex :
    stPE.IPPrefixesCache = [("203.0.113.0/24", ⟨900, "", none⟩)] ∧
    scanPrefixes env1 objA 1000 604800 stPE.IPPrefixesCache stPE.IPPrefixObjects =
      (["203.0.113.0/24"], some ("203.0.113.0/24", ⟨900, "", none⟩)) ∧
    (GetIPInformation env1 1000 604800 stPE "203.0.113.7").res =
      .ok ⟨1000, "64500", "ExHolder", "203.0.113.0/24", "host.example.net"⟩ := by
  decide
